import Mathlib

/-!
Shallow embedding of the Vehicle Telemetry and Diagnostic System core
(`src/main.py`): the `VehicleState` dataclass, `VehicleModel.update` with its
fallback sensor dynamics, the simulator's command draining
(`Simulator._drain_commands`), the bounded state queue publish policy in
`Simulator.run`, and the App-side command senders.

Python floats are modelled as exact rationals (ℚ); Python ints as ℤ.
`math.pi` is embedded as the rational rendering of the double value.
A sensor strategy call that raises an exception is modelled as returning
`none`; the `try/except` around the three sensor calls becomes an
`Option`-match that falls back to `_fallback_sensors`.
-/

/-- Embeds the `VehicleState` dataclass with its default field values. -/
structure VehicleState where
  t : ℚ := 0
  speed_kph : ℚ := 0
  rpm : ℚ := 800
  throttle : ℚ := 0
  brake : ℚ := 0
  gear : ℤ := 1
  engine_on : Bool := true
  coolant_temp_c : ℚ := 70
  fuel_level_pct : ℚ := 80
  battery_v : ℚ := 12.5
deriving Repr, DecidableEq

/- Tunable constants from `VehicleModel.__init__`. -/
def max_accel : ℚ := 3.5
def max_brake : ℚ := 7.0
def drag_coeff : ℚ := 0.015
def idle_rpm : ℚ := 800
def redline_rpm : ℚ := 6500
def wheel_radius_m : ℚ := 0.31
def final_drive : ℚ := 3.42
def shift_up_rpm : ℚ := 3000
def shift_down_rpm : ℚ := 1100

/-- `math.pi` as a rational (decimal rendering of the IEEE double). -/
def pi_q : ℚ := 3.141592653589793

/-- The `gear_ratios` dict `{1: 3.8, 2: 2.2, 3: 1.5, 4: 1.0, 5: 0.8, 6: 0.68}`;
`none` models a missing key. -/
def gear_ratios (g : ℤ) : Option ℚ :=
  if g = 1 then some 3.8
  else if g = 2 then some 2.2
  else if g = 3 then some 1.5
  else if g = 4 then some 1.0
  else if g = 5 then some 0.8
  else if g = 6 then some 0.68
  else none

/-- `max(self.gear_ratios)` in Python is the maximum key of the dict, i.e. 6. -/
def max_gear : ℤ := 6

/-- A pluggable sensor strategy (`telemetry.sensors.Sensors`): three calls with
the argument shapes used at the call sites in `VehicleModel.update`.
A call returning `none` models the call raising an exception. -/
structure SensorStrategy where
  get_coolant_temp : ℚ → Bool → ℚ → Option ℚ
  get_fuel_level : ℚ → ℚ → ℚ → Option ℚ
  get_battery_voltage : ℚ → Bool → ℚ → Option ℚ

/-- `VehicleModel._fallback_sensors`: deterministic coolant / fuel / battery
dynamics. -/
def fallbackSensors (dt : ℚ) (s : VehicleState) : VehicleState :=
  let target : ℚ := if s.engine_on then 92 else 20
  let coolant := s.coolant_temp_c + (target - s.coolant_temp_c) * min 1 (dt * 0.02)
  let fuel := max 0 (s.fuel_level_pct - (0.00002 + 0.0004 * s.throttle) * dt)
  let drift := (if s.engine_on then (0.05 : ℚ) else -0.02) * dt
  let batt := max 11.5 (min 14.2 (s.battery_v + drift))
  { s with coolant_temp_c := coolant, fuel_level_pct := fuel, battery_v := batt }

/-- The sensor-update block of `VehicleModel.update` (lines 111-120): if a
strategy is present, the three calls run in order, each assigning its field;
an exception at any point (a `none` result) is caught and
`_fallback_sensors` runs on the state as mutated so far; with no strategy,
`_fallback_sensors` runs directly. The second and third calls' arguments are
written directly from `s`, since the earlier assignments do not touch the
fields they read (`fuel_level_pct`, `throttle`, `battery_v`, `engine_on`). -/
def applySensors (sensors : Option SensorStrategy) (dt : ℚ) (s : VehicleState) :
    VehicleState :=
  match sensors with
  | none => fallbackSensors dt s
  | some st =>
    match st.get_coolant_temp s.coolant_temp_c s.engine_on dt with
    | none => fallbackSensors dt s
    | some c =>
      match st.get_fuel_level s.fuel_level_pct s.throttle dt with
      | none => fallbackSensors dt { s with coolant_temp_c := c }
      | some f =>
        match st.get_battery_voltage s.battery_v s.engine_on dt with
        | none => fallbackSensors dt { s with coolant_temp_c := c, fuel_level_pct := f }
        | some b => { s with coolant_temp_c := c, fuel_level_pct := f, battery_v := b }

/-- Lines 80-81 of `update`: engine off forces the throttle to zero. -/
def engineOffThrottle (s : VehicleState) : VehicleState :=
  if s.engine_on then s else { s with throttle := 0 }

/-- Lines 83-94 of `update`: forces and speed integration, with the
`max(0.0, ...)` floor, converting km/h to m/s and back. -/
def integrateSpeed (dt : ℚ) (s : VehicleState) : VehicleState :=
  let v_ms0 := s.speed_kph / 3.6
  let a_throttle := s.throttle * max_accel
  let a_brake := s.brake * max_brake
  let a_drag := drag_coeff * v_ms0
  let a_net := a_throttle - a_brake - a_drag
  let v_ms := max 0 (v_ms0 + a_net * dt)
  { s with speed_kph := v_ms * 3.6 }

/-- Lines 96-103 of `update`: RPM from wheel speed and gearing, snapping to
idle (or 0 with the engine off) below 0.1 m/s. -/
def rpmFromSpeed (v_ms : ℚ) (engineOn : Bool) (g : ℤ) : ℚ :=
  let gr := (gear_ratios g).getD 1.0
  if v_ms < 0.1 then (if engineOn then idle_rpm else 0)
  else
    let wheel_rps := v_ms / (2 * pi_q * wheel_radius_m)
    let engine_rpm := wheel_rps * 60 * final_drive * gr
    max (if engineOn then idle_rpm else 0) (min engine_rpm redline_rpm)

/-- Assign the derived RPM. The code reuses the local `v_ms`; since
`speed_kph` was just set to `v_ms * 3.6` and ℚ arithmetic is exact,
`v_ms = s.speed_kph / 3.6` here. -/
def setRpm (s : VehicleState) : VehicleState :=
  { s with rpm := rpmFromSpeed (s.speed_kph / 3.6) s.engine_on s.gear }

/-- Lines 105-109 of `update`: the auto-shift policy. -/
def autoShift (s : VehicleState) : VehicleState :=
  if s.engine_on && decide (s.rpm > shift_up_rpm) && decide (s.gear < max_gear) then
    { s with gear := s.gear + 1 }
  else if s.engine_on && decide (s.rpm < shift_down_rpm) && decide (s.gear > (1 : ℤ)) then
    { s with gear := s.gear - 1 }
  else s

/-- The physics part of `VehicleModel.update` (lines 78-109): engine-off
throttle forcing, speed integration, RPM derivation, auto shift. -/
def physPhase (dt : ℚ) (s0 : VehicleState) : VehicleState :=
  autoShift (setRpm (integrateSpeed dt (engineOffThrottle s0)))

/-- Whether the sensor phase takes a fallback path on state `s`: the strategy
is absent, or one of the three calls raises (returns `none`) on the inputs it
receives there. The second and third calls receive field values that earlier
successful calls did not modify, so the inputs can be read off `s`. -/
def sensorPhaseFails (sensors : Option SensorStrategy) (dt : ℚ) (s : VehicleState) : Bool :=
  match sensors with
  | none => true
  | some st =>
    match st.get_coolant_temp s.coolant_temp_c s.engine_on dt with
    | none => true
    | some _ =>
      match st.get_fuel_level s.fuel_level_pct s.throttle dt with
      | none => true
      | some _ =>
        match st.get_battery_voltage s.battery_v s.engine_on dt with
        | none => true
        | some _ => false

/-- The state as mutated so far at the point where the sensor phase fails (the
state `_fallback_sensors` then runs on): fields assigned by calls that
succeeded before the failure keep the strategy's values. -/
def sensorPartial (sensors : Option SensorStrategy) (dt : ℚ) (s : VehicleState) : VehicleState :=
  match sensors with
  | none => s
  | some st =>
    match st.get_coolant_temp s.coolant_temp_c s.engine_on dt with
    | none => s
    | some c =>
      match st.get_fuel_level s.fuel_level_pct s.throttle dt with
      | none => { s with coolant_temp_c := c }
      | some f => { s with coolant_temp_c := c, fuel_level_pct := f }

/-- Agreement on every field the sensor phase never writes. -/
def eqOnNonSensorFields (a b : VehicleState) : Prop :=
  a.t = b.t ∧ a.speed_kph = b.speed_kph ∧ a.rpm = b.rpm ∧ a.throttle = b.throttle ∧
  a.brake = b.brake ∧ a.gear = b.gear ∧ a.engine_on = b.engine_on

/-- A sensor strategy every call of which raises. -/
def failingSensors : SensorStrategy :=
  ⟨fun _ _ _ => none, fun _ _ _ => none, fun _ _ _ => none⟩

/-- `VehicleModel.update(dt)`: physics, then sensor updates, then `s.t += dt`. -/
def vupdate (sensors : Option SensorStrategy) (dt : ℚ) (s : VehicleState) :
    VehicleState :=
  let s4 := physPhase dt s
  let s5 := applySensors sensors dt s4
  { s5 with t := s5.t + dt }

/-- Commands carried on the command queue, as dispatched by
`Simulator._drain_commands` (the payload types after the `float`/`int`/`bool`
conversions at the assignment sites). -/
inductive Command where
  | throttle (payload : ℚ)
  | brake (payload : ℚ)
  | engine_on (payload : Bool)
  | gear (payload : ℤ)
  | reset
deriving Repr, DecidableEq

/-- One dispatch arm of `Simulator._drain_commands`: `throttle` and `brake`
assign the payload directly; `gear` clamps to `[1, 6]`; `reset` replaces the
state with `VehicleState()`. -/
def applyCommand (s : VehicleState) : Command → VehicleState
  | .throttle p => { s with throttle := p }
  | .brake p => { s with brake := p }
  | .engine_on p => { s with engine_on := p }
  | .gear p => { s with gear := max 1 (min 6 p) }
  | .reset => {}

/-- `Simulator._drain_commands`: apply every queued command in order. -/
def drainCommands (s : VehicleState) (cmds : List Command) : VehicleState :=
  cmds.foldl applyCommand s

/-- `App._set_throttle`: clamps to `[0,1]` before submitting the command. -/
def setThrottleCmd (val : ℚ) : Command := .throttle (max 0 (min 1 val))

/-- `App._set_brake`: clamps to `[0,1]` before submitting the command. -/
def setBrakeCmd (val : ℚ) : Command := .brake (max 0 (min 1 val))

/- ### Bounded state queue (capacity 5) and the publish policy in
`Simulator.run`. The queue is a FIFO list, oldest first. -/

/-- `queue.Queue(maxsize=5)` capacity. -/
def QUEUE_CAP : Nat := 5

/-- `put_nowait`: `none` models raising `queue.Full`. -/
def putNowait (q : List α) (x : α) : Option (List α) :=
  if q.length < QUEUE_CAP then some (q ++ [x]) else none

/-- `get_nowait`: `none` models raising `queue.Empty`. -/
def getNowait : List α → Option (α × List α)
  | [] => none
  | h :: t => some (h, t)

/-- The publish step in `Simulator.run` (lines 157-165): try `put_nowait`;
on `queue.Full`, try `get_nowait` then `put_nowait` again, with only
`queue.Empty` caught by the inner handler. A final `none` models an
exception escaping the publish step. -/
def publish (q : List α) (x : α) : Option (List α) :=
  match putNowait q x with
  | some q2 => some q2
  | none =>
    match getNowait q with
    | none => some q
    | some (_, q1) =>
      match putNowait q1 x with
      | some q2 => some q2
      | none => none

/- ### Reference-passing model of state publication (`Simulator.run` publishes
`self.model.state`, the live object, onto the queue). Objects live in a heap
indexed by allocation order; the channel holds object indices (references);
a reader dereferences at dequeue time. -/

/-- The simulator system: heap of `VehicleState` objects, the index of the
model's live state object, and the state channel holding references. -/
structure SimSys where
  heap : List VehicleState
  live : Nat
  chan : List Nat
deriving Repr

/-- Publish step: `state_out.put_nowait(self.model.state)` places a reference
to the live object on the channel (with the full-queue eviction policy). -/
def publishStep (sys : SimSys) : SimSys :=
  { sys with chan := (publish sys.chan sys.live).getD sys.chan }

/-- Physics step: `self.model.update(self.dt)` mutates the live object in
place (no sensor strategy present, as in the shipped repository). -/
def updateStep (dt : ℚ) (sys : SimSys) : SimSys :=
  match sys.heap.get? sys.live with
  | none => sys
  | some s => { sys with heap := sys.heap.set sys.live (vupdate none dt s) }

/-- A reader dereferences a channel entry at dequeue time. -/
def derefRef (sys : SimSys) (r : Nat) : Option VehicleState :=
  sys.heap.get? r

/-- Whether a command's throttle/brake payload already lies in `[0,1]` — the
property the App-side senders `_set_throttle`/`_set_brake` establish before
submission (other commands carry no throttle/brake payload). -/
def payloadClamped : Command → Bool
  | .throttle p => decide (0 ≤ p ∧ p ≤ 1)
  | .brake p => decide (0 ≤ p ∧ p ≤ 1)
  | _ => true

/-- The publish policy as the spec words it: append the new value if there is
room, otherwise evict the oldest buffered value and append. -/
def publishResult (q : List α) (x : α) : List α :=
  if q.length < QUEUE_CAP then q ++ [x] else q.tail ++ [x]

/-- One simulated control step for trace properties: commands drained before
the step may set the throttle and the engine flag, then `update` runs with the
fallback sensor dynamics (no strategy present, as in the shipped repository). -/
structure StepInput where
  dt : ℚ
  throttleCmd : ℚ
  engineCmd : Bool
deriving Repr, DecidableEq

/-- Apply one `StepInput`: set the commanded fields, then `update`. -/
def applyInput (s : VehicleState) (i : StepInput) : VehicleState :=
  vupdate none i.dt { s with throttle := i.throttleCmd, engine_on := i.engineCmd }

/-- Run a sequence of control steps. -/
def runInputs (s : VehicleState) (l : List StepInput) : VehicleState :=
  l.foldl applyInput s

/-! ### Field-preservation lemmas for the stages of `update` -/

@[simp] theorem engineOffThrottle_t (s : VehicleState) : (engineOffThrottle s).t = s.t := by
  unfold engineOffThrottle; split <;> rfl

@[simp] theorem engineOffThrottle_speed (s : VehicleState) :
    (engineOffThrottle s).speed_kph = s.speed_kph := by
  unfold engineOffThrottle; split <;> rfl

@[simp] theorem engineOffThrottle_rpm (s : VehicleState) : (engineOffThrottle s).rpm = s.rpm := by
  unfold engineOffThrottle; split <;> rfl

@[simp] theorem engineOffThrottle_brake (s : VehicleState) :
    (engineOffThrottle s).brake = s.brake := by
  unfold engineOffThrottle; split <;> rfl

@[simp] theorem engineOffThrottle_gear (s : VehicleState) : (engineOffThrottle s).gear = s.gear := by
  unfold engineOffThrottle; split <;> rfl

@[simp] theorem engineOffThrottle_engine (s : VehicleState) :
    (engineOffThrottle s).engine_on = s.engine_on := by
  unfold engineOffThrottle; split <;> rfl

@[simp] theorem engineOffThrottle_coolant (s : VehicleState) :
    (engineOffThrottle s).coolant_temp_c = s.coolant_temp_c := by
  unfold engineOffThrottle; split <;> rfl

@[simp] theorem engineOffThrottle_fuel (s : VehicleState) :
    (engineOffThrottle s).fuel_level_pct = s.fuel_level_pct := by
  unfold engineOffThrottle; split <;> rfl

@[simp] theorem engineOffThrottle_battery (s : VehicleState) :
    (engineOffThrottle s).battery_v = s.battery_v := by
  unfold engineOffThrottle; split <;> rfl

theorem engineOffThrottle_throttle (s : VehicleState) :
    (engineOffThrottle s).throttle = if s.engine_on then s.throttle else 0 := by
  unfold engineOffThrottle; split <;> simp_all

@[simp] theorem integrateSpeed_t (dt : ℚ) (s : VehicleState) :
    (integrateSpeed dt s).t = s.t := rfl

@[simp] theorem integrateSpeed_rpm (dt : ℚ) (s : VehicleState) :
    (integrateSpeed dt s).rpm = s.rpm := rfl

@[simp] theorem integrateSpeed_throttle (dt : ℚ) (s : VehicleState) :
    (integrateSpeed dt s).throttle = s.throttle := rfl

@[simp] theorem integrateSpeed_brake (dt : ℚ) (s : VehicleState) :
    (integrateSpeed dt s).brake = s.brake := rfl

@[simp] theorem integrateSpeed_gear (dt : ℚ) (s : VehicleState) :
    (integrateSpeed dt s).gear = s.gear := rfl

@[simp] theorem integrateSpeed_engine (dt : ℚ) (s : VehicleState) :
    (integrateSpeed dt s).engine_on = s.engine_on := rfl

@[simp] theorem integrateSpeed_coolant (dt : ℚ) (s : VehicleState) :
    (integrateSpeed dt s).coolant_temp_c = s.coolant_temp_c := rfl

@[simp] theorem integrateSpeed_fuel (dt : ℚ) (s : VehicleState) :
    (integrateSpeed dt s).fuel_level_pct = s.fuel_level_pct := rfl

@[simp] theorem integrateSpeed_battery (dt : ℚ) (s : VehicleState) :
    (integrateSpeed dt s).battery_v = s.battery_v := rfl

theorem integrateSpeed_speed_nonneg (dt : ℚ) (s : VehicleState) :
    0 ≤ (integrateSpeed dt s).speed_kph := by
  unfold integrateSpeed
  exact mul_nonneg (le_max_left 0 _) (by norm_num)

@[simp] theorem setRpm_t (s : VehicleState) : (setRpm s).t = s.t := rfl

@[simp] theorem setRpm_speed (s : VehicleState) : (setRpm s).speed_kph = s.speed_kph := rfl

@[simp] theorem setRpm_throttle (s : VehicleState) : (setRpm s).throttle = s.throttle := rfl

@[simp] theorem setRpm_brake (s : VehicleState) : (setRpm s).brake = s.brake := rfl

@[simp] theorem setRpm_gear (s : VehicleState) : (setRpm s).gear = s.gear := rfl

@[simp] theorem setRpm_engine (s : VehicleState) : (setRpm s).engine_on = s.engine_on := rfl

@[simp] theorem setRpm_coolant (s : VehicleState) : (setRpm s).coolant_temp_c = s.coolant_temp_c := rfl

@[simp] theorem setRpm_fuel (s : VehicleState) : (setRpm s).fuel_level_pct = s.fuel_level_pct := rfl

@[simp] theorem setRpm_battery (s : VehicleState) : (setRpm s).battery_v = s.battery_v := rfl

@[simp] theorem autoShift_t (s : VehicleState) : (autoShift s).t = s.t := by
  unfold autoShift; split <;> [rfl; (split <;> rfl)]

@[simp] theorem autoShift_speed (s : VehicleState) : (autoShift s).speed_kph = s.speed_kph := by
  unfold autoShift; split <;> [rfl; (split <;> rfl)]

@[simp] theorem autoShift_rpm (s : VehicleState) : (autoShift s).rpm = s.rpm := by
  unfold autoShift; split <;> [rfl; (split <;> rfl)]

@[simp] theorem autoShift_throttle (s : VehicleState) : (autoShift s).throttle = s.throttle := by
  unfold autoShift; split <;> [rfl; (split <;> rfl)]

@[simp] theorem autoShift_brake (s : VehicleState) : (autoShift s).brake = s.brake := by
  unfold autoShift; split <;> [rfl; (split <;> rfl)]

@[simp] theorem autoShift_engine (s : VehicleState) : (autoShift s).engine_on = s.engine_on := by
  unfold autoShift; split <;> [rfl; (split <;> rfl)]

@[simp] theorem autoShift_coolant (s : VehicleState) :
    (autoShift s).coolant_temp_c = s.coolant_temp_c := by
  unfold autoShift; split <;> [rfl; (split <;> rfl)]

@[simp] theorem autoShift_fuel (s : VehicleState) :
    (autoShift s).fuel_level_pct = s.fuel_level_pct := by
  unfold autoShift; split <;> [rfl; (split <;> rfl)]

@[simp] theorem autoShift_battery (s : VehicleState) : (autoShift s).battery_v = s.battery_v := by
  unfold autoShift; split <;> [rfl; (split <;> rfl)]

@[simp] theorem applySensors_t (sensors : Option SensorStrategy) (dt : ℚ) (s : VehicleState) :
    (applySensors sensors dt s).t = s.t := by
  unfold applySensors fallbackSensors; repeat' split
  all_goals rfl

@[simp] theorem applySensors_speed (sensors : Option SensorStrategy) (dt : ℚ) (s : VehicleState) :
    (applySensors sensors dt s).speed_kph = s.speed_kph := by
  unfold applySensors fallbackSensors; repeat' split
  all_goals rfl

@[simp] theorem applySensors_rpm (sensors : Option SensorStrategy) (dt : ℚ) (s : VehicleState) :
    (applySensors sensors dt s).rpm = s.rpm := by
  unfold applySensors fallbackSensors; repeat' split
  all_goals rfl

@[simp] theorem applySensors_throttle (sensors : Option SensorStrategy) (dt : ℚ) (s : VehicleState) :
    (applySensors sensors dt s).throttle = s.throttle := by
  unfold applySensors fallbackSensors; repeat' split
  all_goals rfl

@[simp] theorem applySensors_brake (sensors : Option SensorStrategy) (dt : ℚ) (s : VehicleState) :
    (applySensors sensors dt s).brake = s.brake := by
  unfold applySensors fallbackSensors; repeat' split
  all_goals rfl

@[simp] theorem applySensors_gear (sensors : Option SensorStrategy) (dt : ℚ) (s : VehicleState) :
    (applySensors sensors dt s).gear = s.gear := by
  unfold applySensors fallbackSensors; repeat' split
  all_goals rfl

@[simp] theorem applySensors_engine (sensors : Option SensorStrategy) (dt : ℚ) (s : VehicleState) :
    (applySensors sensors dt s).engine_on = s.engine_on := by
  unfold applySensors fallbackSensors; repeat' split
  all_goals rfl

/-! ### Derived shapes of `physPhase` and `vupdate` -/

@[simp] theorem physPhase_t (dt : ℚ) (s : VehicleState) : (physPhase dt s).t = s.t := by
  simp [physPhase]

@[simp] theorem physPhase_engine (dt : ℚ) (s : VehicleState) :
    (physPhase dt s).engine_on = s.engine_on := by
  simp [physPhase]

@[simp] theorem physPhase_speed (dt : ℚ) (s : VehicleState) :
    (physPhase dt s).speed_kph = (integrateSpeed dt (engineOffThrottle s)).speed_kph := by
  simp [physPhase]

@[simp] theorem physPhase_rpm (dt : ℚ) (s : VehicleState) :
    (physPhase dt s).rpm =
      rpmFromSpeed ((integrateSpeed dt (engineOffThrottle s)).speed_kph / 3.6)
        s.engine_on s.gear := by
  simp [physPhase, setRpm]

@[simp] theorem physPhase_gear (dt : ℚ) (s : VehicleState) :
    (physPhase dt s).gear = (autoShift (setRpm (integrateSpeed dt (engineOffThrottle s)))).gear :=
  rfl

@[simp] theorem physPhase_fuel (dt : ℚ) (s : VehicleState) :
    (physPhase dt s).fuel_level_pct = s.fuel_level_pct := by
  simp [physPhase]

@[simp] theorem physPhase_coolant (dt : ℚ) (s : VehicleState) :
    (physPhase dt s).coolant_temp_c = s.coolant_temp_c := by
  simp [physPhase]

@[simp] theorem physPhase_battery (dt : ℚ) (s : VehicleState) :
    (physPhase dt s).battery_v = s.battery_v := by
  simp [physPhase]

theorem physPhase_throttle (dt : ℚ) (s : VehicleState) :
    (physPhase dt s).throttle = if s.engine_on then s.throttle else 0 := by
  simp [physPhase, engineOffThrottle_throttle]

theorem vupdate_t (sensors : Option SensorStrategy) (dt : ℚ) (s : VehicleState) :
    (vupdate sensors dt s).t = s.t + dt := by
  simp [vupdate]

@[simp] theorem vupdate_engine (sensors : Option SensorStrategy) (dt : ℚ) (s : VehicleState) :
    (vupdate sensors dt s).engine_on = s.engine_on := by
  simp [vupdate]

theorem vupdate_speed (sensors : Option SensorStrategy) (dt : ℚ) (s : VehicleState) :
    (vupdate sensors dt s).speed_kph = (integrateSpeed dt (engineOffThrottle s)).speed_kph := by
  simp [vupdate]

theorem vupdate_rpm (sensors : Option SensorStrategy) (dt : ℚ) (s : VehicleState) :
    (vupdate sensors dt s).rpm =
      rpmFromSpeed ((integrateSpeed dt (engineOffThrottle s)).speed_kph / 3.6)
        s.engine_on s.gear := by
  simp [vupdate]

theorem vupdate_gear (sensors : Option SensorStrategy) (dt : ℚ) (s : VehicleState) :
    (vupdate sensors dt s).gear =
      (autoShift (setRpm (integrateSpeed dt (engineOffThrottle s)))).gear := by
  simp [vupdate]

theorem vupdate_throttle (sensors : Option SensorStrategy) (dt : ℚ) (s : VehicleState) :
    (vupdate sensors dt s).throttle = if s.engine_on then s.throttle else 0 := by
  simp [vupdate, physPhase_throttle]

/-! ### Bounds for the derived RPM and the auto-shift policy -/

/-- The derived RPM always lies in `[idle_rpm if engine on else 0, redline_rpm]`. -/
theorem rpmFromSpeed_bounds (v : ℚ) (e : Bool) (g : ℤ) :
    (if e then idle_rpm else 0) ≤ rpmFromSpeed v e g ∧ rpmFromSpeed v e g ≤ redline_rpm := by
  have hir : (if e then idle_rpm else 0) ≤ redline_rpm := by
    cases e <;> norm_num [idle_rpm, redline_rpm]
  by_cases hv : v < (0.1 : ℚ)
  · simp only [rpmFromSpeed, if_pos hv]
    exact ⟨le_refl _, hir⟩
  · simp only [rpmFromSpeed, if_neg hv]
    exact ⟨le_max_left _ _, max_le hir (min_le_right _ _)⟩

/-- The auto shift keeps the gear inside `[1, max_gear]`. -/
theorem autoShift_gear_bounds (s : VehicleState) (h1 : 1 ≤ s.gear) (h2 : s.gear ≤ max_gear) :
    1 ≤ (autoShift s).gear ∧ (autoShift s).gear ≤ max_gear := by
  unfold autoShift
  split
  next h =>
    simp only [Bool.and_eq_true, decide_eq_true_eq] at h
    simp only [max_gear] at *
    exact ⟨by omega, by omega⟩
  next =>
    split
    next h =>
      simp only [Bool.and_eq_true, decide_eq_true_eq] at h
      simp only [max_gear] at *
      exact ⟨by omega, by omega⟩
    next => exact ⟨h1, h2⟩

/-- The auto shift moves the gear by at most one step. -/
theorem autoShift_gear_cases (s : VehicleState) :
    (autoShift s).gear = s.gear ∨ (autoShift s).gear = s.gear + 1 ∨
      (autoShift s).gear = s.gear - 1 := by
  unfold autoShift
  split
  · exact Or.inr (Or.inl rfl)
  · split
    · exact Or.inr (Or.inr rfl)
    · exact Or.inl rfl

/-- Up-shift fires exactly under the code's guard. -/
theorem autoShift_up (s : VehicleState) (he : s.engine_on = true)
    (hr : shift_up_rpm < s.rpm) (hg : s.gear < max_gear) :
    (autoShift s).gear = s.gear + 1 := by
  unfold autoShift
  rw [if_pos (by simp [he, hr, hg])]

/-- Down-shift fires exactly under the code's guard (the up-shift guard is
then unsatisfiable since `shift_down_rpm < shift_up_rpm`). -/
theorem autoShift_down (s : VehicleState) (he : s.engine_on = true)
    (hr : s.rpm < shift_down_rpm) (hg : 1 < s.gear) :
    (autoShift s).gear = s.gear - 1 := by
  have hr' : ¬ shift_up_rpm < s.rpm := by
    simp only [shift_up_rpm, shift_down_rpm] at hr ⊢
    intro h; linarith
  unfold autoShift
  rw [if_neg (by simp [hr']), if_pos (by simp [he, hr, hg])]

/-- No shift happens with the engine off. -/
theorem autoShift_engineoff (s : VehicleState) (he : s.engine_on = false) :
    autoShift s = s := by
  unfold autoShift
  simp [he]

/-- C3: For every `dt > 0` and every valid state (`speed_kph ≥ 0`,
`gear ∈ [1, max_gear]`), after `VehicleModel.update(dt)` the elapsed time `t`
increases by exactly `dt`, `speed_kph ≥ 0`, `gear` stays in `[1, max_gear]`,
and `rpm` lies in `[idle_rpm if engine_on else 0, redline_rpm]`. -/
theorem update_state_invariants (sensors : Option SensorStrategy) (dt : ℚ) (s : VehicleState)
    (hdt : 0 < dt) (hsp : 0 ≤ s.speed_kph) (hg1 : 1 ≤ s.gear) (hg2 : s.gear ≤ max_gear) :
    (vupdate sensors dt s).t = s.t + dt ∧
    0 ≤ (vupdate sensors dt s).speed_kph ∧
    1 ≤ (vupdate sensors dt s).gear ∧
    (vupdate sensors dt s).gear ≤ max_gear ∧
    (if s.engine_on then idle_rpm else 0) ≤ (vupdate sensors dt s).rpm ∧
    (vupdate sensors dt s).rpm ≤ redline_rpm := by
  have hgear := autoShift_gear_bounds (setRpm (integrateSpeed dt (engineOffThrottle s)))
    (by simpa using hg1) (by simpa using hg2)
  have hrpm := rpmFromSpeed_bounds
    ((integrateSpeed dt (engineOffThrottle s)).speed_kph / 3.6) s.engine_on s.gear
  refine ⟨vupdate_t sensors dt s, ?_, ?_, ?_, ?_, ?_⟩
  · rw [vupdate_speed]; exact integrateSpeed_speed_nonneg dt (engineOffThrottle s)
  · rw [vupdate_gear]; exact hgear.1
  · rw [vupdate_gear]; exact hgear.2
  · rw [vupdate_rpm]; exact hrpm.1
  · rw [vupdate_rpm]; exact hrpm.2

/-- Witness for C3 at the default state with `dt = 1`. -/
theorem update_state_invariants_witness :
    ((0 : ℚ) < 1 ∧ 0 ≤ ({} : VehicleState).speed_kph ∧
      1 ≤ ({} : VehicleState).gear ∧ ({} : VehicleState).gear ≤ max_gear) ∧
    ((vupdate none 1 {}).t = ({} : VehicleState).t + 1 ∧
     0 ≤ (vupdate none 1 {}).speed_kph ∧
     1 ≤ (vupdate none 1 {}).gear ∧
     (vupdate none 1 {}).gear ≤ max_gear ∧
     (if ({} : VehicleState).engine_on then idle_rpm else 0) ≤ (vupdate none 1 {}).rpm ∧
     (vupdate none 1 {}).rpm ≤ redline_rpm) :=
  ⟨⟨by norm_num, by decide, by decide, by decide⟩,
    update_state_invariants none 1 {} (by norm_num) (by decide) (by decide) (by decide)⟩

/-- C5: when the integrated speed of the step is below 0.1 m/s
(`speed_kph / 3.6 < 0.1`), `update` bypasses the gearing formula: the
resulting RPM is exactly `idle_rpm` with the engine on and 0 with the engine
off, regardless of the current gear. -/
theorem rpm_snaps_near_zero_speed (sensors : Option SensorStrategy) (dt : ℚ) (s : VehicleState)
    (h : (vupdate sensors dt s).speed_kph / 3.6 < 0.1) :
    (vupdate sensors dt s).rpm = (if s.engine_on then idle_rpm else 0) := by
  rw [vupdate_speed] at h
  rw [vupdate_rpm]
  simp only [rpmFromSpeed]
  rw [if_pos h]

/-- Witness for C5 at the default state (engine on, at rest) with `dt = 1`. -/
theorem rpm_snaps_near_zero_speed_witness :
    (vupdate none 1 {}).speed_kph / 3.6 < 0.1 ∧
    (vupdate none 1 {}).rpm = (if ({} : VehicleState).engine_on then idle_rpm else 0) :=
  ⟨by norm_num [vupdate, physPhase, engineOffThrottle, integrateSpeed, setRpm, rpmFromSpeed,
      autoShift, applySensors, fallbackSensors, gear_ratios, max_accel, max_brake, drag_coeff,
      idle_rpm, redline_rpm, wheel_radius_m, final_drive, shift_up_rpm, shift_down_rpm, pi_q,
      max_gear],
   rpm_snaps_near_zero_speed none 1 {}
     (by norm_num [vupdate, physPhase, engineOffThrottle, integrateSpeed, setRpm, rpmFromSpeed,
        autoShift, applySensors, fallbackSensors, gear_ratios, max_accel, max_brake, drag_coeff,
        idle_rpm, redline_rpm, wheel_radius_m, final_drive, shift_up_rpm, shift_down_rpm, pi_q,
        max_gear])⟩

/-- C6: with the engine off, `update` forces the throttle to zero before
integrating: the resulting throttle is 0 and the whole step equals the step
taken from the same state with throttle already zeroed, even if a throttle
command stored a positive value after the engine was turned off. -/
theorem engineoff_zero_throttle (sensors : Option SensorStrategy) (dt : ℚ) (s : VehicleState)
    (hdt : 0 < dt) (he : s.engine_on = false) :
    (vupdate sensors dt s).throttle = 0 ∧
    vupdate sensors dt s = vupdate sensors dt { s with throttle := 0 } := by
  constructor
  · rw [vupdate_throttle, he]
    simp
  · have h1 : engineOffThrottle s = engineOffThrottle { s with throttle := 0 } := by
      simp [engineOffThrottle, he]
    unfold vupdate physPhase
    rw [h1]

/-- Witness for C6: engine off with a stored throttle of 1, `dt = 1`. -/
theorem engineoff_zero_throttle_witness :
    ((0 : ℚ) < 1 ∧ ({ throttle := 1, engine_on := false } : VehicleState).engine_on = false) ∧
    ((vupdate none 1 { throttle := 1, engine_on := false }).throttle = 0 ∧
     vupdate none 1 { throttle := 1, engine_on := false } =
       vupdate none 1
         { ({ throttle := 1, engine_on := false } : VehicleState) with throttle := 0 }) :=
  ⟨⟨by norm_num, by decide⟩,
    engineoff_zero_throttle none 1 { throttle := 1, engine_on := false } (by norm_num) (by decide)⟩

/-- C4 fails as stated: the code's shift guards also require the engine to be
on. Concrete input: engine off, gear 2, at rest, `dt = 1`. The derived RPM of
the step is 0, below the down-shift threshold, and the gear is above 1, yet
the gear does not decrement. -/
theorem autoshift_counterexample :
    ((vupdate none 1 { gear := 2, engine_on := false }).rpm < shift_down_rpm ∧
      (1 : ℤ) < ({ gear := 2, engine_on := false } : VehicleState).gear) ∧
    (vupdate none 1 { gear := 2, engine_on := false }).gear ≠
      ({ gear := 2, engine_on := false } : VehicleState).gear - 1 := by
  norm_num [vupdate, physPhase, engineOffThrottle, integrateSpeed, setRpm, rpmFromSpeed,
      autoShift, applySensors, fallbackSensors, gear_ratios, max_accel, max_brake, drag_coeff,
      idle_rpm, redline_rpm, wheel_radius_m, final_drive, shift_up_rpm, shift_down_rpm, pi_q,
      max_gear]

/-- C4 (amended): with the engine on, if the derived RPM of the step exceeds
the up-shift threshold and the gear is below the top gear, the gear
increments by exactly one; else if it is below the down-shift threshold and
the gear is above 1, the gear decrements by exactly one; with the engine off
the gear never changes; in every case at most one gear step occurs per
`update` call. -/
theorem autoshift_policy_amended (sensors : Option SensorStrategy) (dt : ℚ) (s : VehicleState) :
    (s.engine_on = true → shift_up_rpm < (vupdate sensors dt s).rpm → s.gear < max_gear →
      (vupdate sensors dt s).gear = s.gear + 1) ∧
    (s.engine_on = true → (vupdate sensors dt s).rpm < shift_down_rpm → 1 < s.gear →
      (vupdate sensors dt s).gear = s.gear - 1) ∧
    (s.engine_on = false → (vupdate sensors dt s).gear = s.gear) ∧
    ((vupdate sensors dt s).gear = s.gear ∨ (vupdate sensors dt s).gear = s.gear + 1 ∨
      (vupdate sensors dt s).gear = s.gear - 1) := by
  have hx_rpm : (setRpm (integrateSpeed dt (engineOffThrottle s))).rpm =
      (vupdate sensors dt s).rpm := by
    rw [vupdate_rpm]
    simp [setRpm]
  have hgear := vupdate_gear sensors dt s
  refine ⟨?_, ?_, ?_, ?_⟩
  · intro he hr hg
    rw [hgear, autoShift_up _ (by simpa using he) (by rw [hx_rpm]; exact hr) (by simpa using hg)]
    simp
  · intro he hr hg
    rw [hgear, autoShift_down _ (by simpa using he) (by rw [hx_rpm]; exact hr) (by simpa using hg)]
    simp
  · intro he
    rw [hgear, autoShift_engineoff _ (by simpa using he)]
    simp
  · rw [hgear]
    have := autoShift_gear_cases (setRpm (integrateSpeed dt (engineOffThrottle s)))
    simpa using this

/-- Witness for C4 (amended): engine on, 100 km/h in gear 1, `dt = 1/100` —
the derived RPM clamps to the redline, above the up-shift threshold, and the
gear increments to 2. -/
theorem autoshift_policy_amended_witness :
    (({ speed_kph := 100 } : VehicleState).engine_on = true ∧
     shift_up_rpm < (vupdate none (1/100) { speed_kph := 100 }).rpm ∧
     ({ speed_kph := 100 } : VehicleState).gear < max_gear) ∧
    (vupdate none (1/100) { speed_kph := 100 }).gear =
      ({ speed_kph := 100 } : VehicleState).gear + 1 :=
  ⟨⟨by decide,
    by norm_num [vupdate, physPhase, engineOffThrottle, integrateSpeed, setRpm, rpmFromSpeed,
      autoShift, applySensors, fallbackSensors, gear_ratios, max_accel, max_brake, drag_coeff,
      idle_rpm, redline_rpm, wheel_radius_m, final_drive, shift_up_rpm, shift_down_rpm, pi_q,
      max_gear],
    by decide⟩,
    (autoshift_policy_amended none (1/100) { speed_kph := 100 }).1
      (by decide)
      (by norm_num [vupdate, physPhase, engineOffThrottle, integrateSpeed, setRpm, rpmFromSpeed,
      autoShift, applySensors, fallbackSensors, gear_ratios, max_accel, max_brake, drag_coeff,
      idle_rpm, redline_rpm, wheel_radius_m, final_drive, shift_up_rpm, shift_down_rpm, pi_q,
      max_gear])
      (by decide)⟩

/-! ### Command payload clamping (C1) -/

/-- C1 fails as stated: `Simulator._drain_commands` assigns throttle and
brake payloads without clamping. Draining a single raw throttle command with
payload 2 from the default state leaves `throttle = 2`, outside `[0, 1]`. -/
theorem drain_no_clamp_counterexample :
    (drainCommands {} [Command.throttle 2]).throttle = 2 ∧
    ¬ (drainCommands {} [Command.throttle 2]).throttle ≤ 1 := by
  decide

/-- Unfolding of `drainCommands` on a cons cell. -/
theorem drainCommands_cons (s : VehicleState) (c : Command) (rest : List Command) :
    drainCommands s (c :: rest) = drainCommands (applyCommand s c) rest := rfl

/-- Applying one command with an in-range throttle/brake payload keeps
throttle and brake in `[0, 1]`. -/
theorem applyCommand_unit_range (s : VehicleState) (c : Command)
    (hs : 0 ≤ s.throttle ∧ s.throttle ≤ 1 ∧ 0 ≤ s.brake ∧ s.brake ≤ 1)
    (hc : payloadClamped c = true) :
    0 ≤ (applyCommand s c).throttle ∧ (applyCommand s c).throttle ≤ 1 ∧
    0 ≤ (applyCommand s c).brake ∧ (applyCommand s c).brake ≤ 1 := by
  cases c with
  | throttle p =>
    simp only [payloadClamped, decide_eq_true_eq] at hc
    exact ⟨hc.1, hc.2, hs.2.2.1, hs.2.2.2⟩
  | brake p =>
    simp only [payloadClamped, decide_eq_true_eq] at hc
    exact ⟨hs.1, hs.2.1, hc.1, hc.2⟩
  | engine_on p => exact hs
  | gear p => exact hs
  | reset =>
    show (0 : ℚ) ≤ 0 ∧ (0 : ℚ) ≤ 1 ∧ (0 : ℚ) ≤ 0 ∧ (0 : ℚ) ≤ 1
    exact ⟨le_refl 0, by norm_num, le_refl 0, by norm_num⟩

/-- C1 (amended): `_drain_commands` itself does not clamp throttle/brake —
clamping to `[0, 1]` happens at submission in the App senders
(`_set_throttle`/`_set_brake`). Every sender-produced command carries an
in-range payload, and draining any sequence of in-range commands from a state
with in-range throttle and brake keeps both fields in `[0, 1]`, so
`VehicleModel.update` never sees out-of-range throttle or brake in the
assembled application. -/
theorem drain_clamped_commands_in_range (s : VehicleState) (cmds : List Command)
    (hs : 0 ≤ s.throttle ∧ s.throttle ≤ 1 ∧ 0 ≤ s.brake ∧ s.brake ≤ 1)
    (hc : ∀ c ∈ cmds, payloadClamped c = true) :
    (0 ≤ (drainCommands s cmds).throttle ∧ (drainCommands s cmds).throttle ≤ 1 ∧
     0 ≤ (drainCommands s cmds).brake ∧ (drainCommands s cmds).brake ≤ 1) ∧
    ∀ v : ℚ, payloadClamped (setThrottleCmd v) = true ∧
      payloadClamped (setBrakeCmd v) = true := by
  constructor
  · induction cmds generalizing s with
    | nil => exact hs
    | cons c rest ih =>
      rw [drainCommands_cons]
      exact ih (applyCommand s c)
        (applyCommand_unit_range s c hs (hc c (List.mem_cons_self c rest)))
        (fun d hd => hc d (List.mem_cons_of_mem c hd))
  · intro v
    have h1 : (0 : ℚ) ≤ max 0 (min 1 v) := le_max_left 0 _
    have h2 : max 0 (min 1 v) ≤ 1 := max_le (by norm_num) (min_le_left 1 v)
    constructor <;>
      simp only [setThrottleCmd, setBrakeCmd, payloadClamped, decide_eq_true_eq] <;>
      exact ⟨h1, h2⟩

/-- Witness for C1 (amended): draining sender-clamped commands (raw payloads
5 and -3) plus a gear command from the default state. -/
theorem drain_clamped_commands_in_range_witness :
    ((0 ≤ ({} : VehicleState).throttle ∧ ({} : VehicleState).throttle ≤ 1 ∧
      0 ≤ ({} : VehicleState).brake ∧ ({} : VehicleState).brake ≤ 1) ∧
     (∀ c ∈ [setThrottleCmd 5, setBrakeCmd (-3), Command.gear 9],
        payloadClamped c = true)) ∧
    (0 ≤ (drainCommands {} [setThrottleCmd 5, setBrakeCmd (-3), Command.gear 9]).throttle ∧
     (drainCommands {} [setThrottleCmd 5, setBrakeCmd (-3), Command.gear 9]).throttle ≤ 1 ∧
     0 ≤ (drainCommands {} [setThrottleCmd 5, setBrakeCmd (-3), Command.gear 9]).brake ∧
     (drainCommands {} [setThrottleCmd 5, setBrakeCmd (-3), Command.gear 9]).brake ≤ 1) :=
  ⟨⟨by decide, by decide⟩,
    (drain_clamped_commands_in_range {} [setThrottleCmd 5, setBrakeCmd (-3), Command.gear 9]
      (by decide) (by decide)).1⟩

/-! ### The bounded state queue (C8) and reference publication (C2) -/

/-- Under the capacity invariant, the publish step always succeeds and
produces `publishResult`: the inner `put_nowait` retry cannot raise. -/
theorem publish_eq (q : List α) (x : α) (h : q.length ≤ QUEUE_CAP) :
    publish q x = some (publishResult q x) := by
  by_cases hlt : q.length < QUEUE_CAP
  · simp [publish, publishResult, putNowait, hlt]
  · have h5 : q.length = QUEUE_CAP := le_antisymm h (not_lt.mp hlt)
    cases q with
    | nil => simp [QUEUE_CAP] at h5
    | cons a t =>
      have h5' : t.length + 1 = QUEUE_CAP := by simpa using h5
      have hlt' : ¬ t.length + 1 < QUEUE_CAP := by omega
      have ht : t.length < QUEUE_CAP := by
        simp only [QUEUE_CAP] at h5' ⊢
        omega
      simp [publish, publishResult, putNowait, getNowait, hlt', ht]

/-- The newly produced value always ends up last in the buffer. -/
theorem publishResult_getLast (q : List α) (x : α) :
    (publishResult q x).getLast? = some x := by
  unfold publishResult
  split <;> exact List.getLast?_concat _

/-- The buffer never exceeds its capacity. -/
theorem publishResult_length (q : List α) (x : α) (h : q.length ≤ QUEUE_CAP) :
    (publishResult q x).length ≤ QUEUE_CAP := by
  unfold publishResult
  split
  next hlt => simp only [List.length_append, List.length_singleton]; omega
  next hlt =>
    simp only [List.length_append, List.length_singleton, List.length_tail]
    simp only [QUEUE_CAP] at *
    omega

/-- C8: publishing to the bounded state queue (capacity 5) never blocks and
never surfaces an error: under the capacity invariant the publish step always
returns a buffer (`some`), the new value is appended last, capacity is kept,
and when the queue is full exactly the oldest buffered value is evicted. -/
theorem publish_never_blocks (q : List α) (x : α) (h : q.length ≤ QUEUE_CAP) :
    publish q x = some (publishResult q x) ∧
    (publishResult q x).getLast? = some x ∧
    (publishResult q x).length ≤ QUEUE_CAP ∧
    (q.length < QUEUE_CAP → publishResult q x = q ++ [x]) ∧
    (q.length = QUEUE_CAP → publishResult q x = q.tail ++ [x]) := by
  refine ⟨publish_eq q x h, publishResult_getLast q x, publishResult_length q x h, ?_, ?_⟩
  · intro hlt
    simp [publishResult, hlt]
  · intro heq
    have hlt : ¬ q.length < QUEUE_CAP := by omega
    simp [publishResult, hlt]

/-- Witness for C8: a full buffer of five states; the oldest (`t = 0`) is
evicted and the new state (`t = 9`) is appended. -/
theorem publish_never_blocks_witness :
    ([({ t := 0 } : VehicleState), { t := 1 }, { t := 2 }, { t := 3 },
        { t := 4 }].length ≤ QUEUE_CAP) ∧
    (publish [({ t := 0 } : VehicleState), { t := 1 }, { t := 2 }, { t := 3 }, { t := 4 }]
        { t := 9 } =
      some (publishResult
        [({ t := 0 } : VehicleState), { t := 1 }, { t := 2 }, { t := 3 }, { t := 4 }]
        { t := 9 }) ∧
     (publishResult [({ t := 0 } : VehicleState), { t := 1 }, { t := 2 }, { t := 3 },
        { t := 4 }] { t := 9 }).getLast? = some { t := 9 } ∧
     (publishResult [({ t := 0 } : VehicleState), { t := 1 }, { t := 2 }, { t := 3 },
        { t := 4 }] { t := 9 }).length ≤ QUEUE_CAP ∧
     ([({ t := 0 } : VehicleState), { t := 1 }, { t := 2 }, { t := 3 },
        { t := 4 }].length < QUEUE_CAP →
       publishResult [({ t := 0 } : VehicleState), { t := 1 }, { t := 2 }, { t := 3 },
         { t := 4 }] { t := 9 } =
       [({ t := 0 } : VehicleState), { t := 1 }, { t := 2 }, { t := 3 }, { t := 4 }] ++
         [{ t := 9 }]) ∧
     ([({ t := 0 } : VehicleState), { t := 1 }, { t := 2 }, { t := 3 },
        { t := 4 }].length = QUEUE_CAP →
       publishResult [({ t := 0 } : VehicleState), { t := 1 }, { t := 2 }, { t := 3 },
         { t := 4 }] { t := 9 } =
       [({ t := 0 } : VehicleState), { t := 1 }, { t := 2 }, { t := 3 },
         { t := 4 }].tail ++ [{ t := 9 }])) :=
  ⟨by decide,
    publish_never_blocks [({ t := 0 } : VehicleState), { t := 1 }, { t := 2 }, { t := 3 },
      { t := 4 }] { t := 9 } (by decide)⟩

/-- C2 fails as stated: the simulator publishes `self.model.state` itself, a
reference to the live object, not a copy. Publishing from the initial system
puts reference 0 on the channel with `t = 0`; after one further physics step
(`dt = 1`) the same dequeued reference reads `t = 1`: the published snapshot
has been mutated by a later `VehicleModel.update`. -/
theorem publish_not_snapshot_counterexample :
    (publishStep { heap := [{}], live := 0, chan := [] }).chan = [0] ∧
    (derefRef (publishStep { heap := [{}], live := 0, chan := [] }) 0).map VehicleState.t =
      some 0 ∧
    (derefRef (updateStep 1 (publishStep { heap := [{}], live := 0, chan := [] })) 0).map
      VehicleState.t = some 1 := by
  refine ⟨rfl, rfl, ?_⟩
  have ht : (vupdate none 1 ({} : VehicleState)).t = 1 := by
    rw [vupdate_t]
    norm_num
  simp [publishStep, updateStep, derefRef, publish, putNowait, getNowait, QUEUE_CAP, ht]

/-- C2 (amended): publication is by reference, not copy-on-publish. The
publish step appends a reference to the live state object to the channel,
and after the next physics step dereferencing that same entry yields the
post-update state — the live object the reference aliases — rather than the
value it held at publish time. -/
theorem publish_aliases_live (sys : SimSys) (dt : ℚ)
    (hlive : sys.live < sys.heap.length) (hq : sys.chan.length ≤ QUEUE_CAP) :
    (publishStep sys).chan.getLast? = some sys.live ∧
    derefRef (updateStep dt (publishStep sys)) sys.live =
      some (vupdate none dt (sys.heap.get ⟨sys.live, hlive⟩)) := by
  have hpub : (publishStep sys).chan = publishResult sys.chan sys.live := by
    simp [publishStep, publish_eq sys.chan sys.live hq]
  constructor
  · rw [hpub]
    exact publishResult_getLast _ _
  · have hget : sys.heap.get? sys.live = some (sys.heap.get ⟨sys.live, hlive⟩) :=
      List.get?_eq_get hlive
    show (match sys.heap.get? sys.live with
      | none => publishStep sys
      | some s => { publishStep sys with
          heap := sys.heap.set sys.live (vupdate none dt s) }).heap.get? sys.live =
      some (vupdate none dt (sys.heap.get ⟨sys.live, hlive⟩))
    rw [hget]
    rw [List.get?_eq_getElem?]
    exact List.getElem?_set_self (by simpa using hlive)

/-- Witness for C2 (amended) on a one-object heap with an empty channel. -/
theorem publish_aliases_live_witness :
    (({ heap := [{}], live := 0, chan := [] } : SimSys).live <
      ({ heap := [{}], live := 0, chan := [] } : SimSys).heap.length ∧
     ({ heap := [{}], live := 0, chan := [] } : SimSys).chan.length ≤ QUEUE_CAP) ∧
    ((publishStep { heap := [{}], live := 0, chan := [] }).chan.getLast? =
      some ({ heap := [{}], live := 0, chan := [] } : SimSys).live ∧
     derefRef (updateStep 1 (publishStep { heap := [{}], live := 0, chan := [] }))
        ({ heap := [{}], live := 0, chan := [] } : SimSys).live =
      some (vupdate none 1
        (({ heap := [{}], live := 0, chan := [] } : SimSys).heap.get ⟨0, by decide⟩))) :=
  ⟨⟨by decide, by decide⟩,
    publish_aliases_live { heap := [{}], live := 0, chan := [] } 1 (by decide) (by decide)⟩

/-! ### Sensor failure handling (C7) -/

/-- `fallbackSensors` leaves the elapsed-time field unchanged. -/
theorem fallbackSensors_t (dt : ℚ) (s : VehicleState) : (fallbackSensors dt s).t = s.t := rfl

/-- The partially-mutated failure state agrees with the input on every
non-sensor field, and on the battery field (the battery assignment comes
last, so it never precedes a failure). -/
theorem sensorPartial_agrees (sensors : Option SensorStrategy) (dt : ℚ) (s : VehicleState) :
    eqOnNonSensorFields (sensorPartial sensors dt s) s ∧
    (sensorPartial sensors dt s).battery_v = s.battery_v := by
  unfold eqOnNonSensorFields sensorPartial
  repeat' split
  all_goals exact ⟨⟨rfl, rfl, rfl, rfl, rfl, rfl, rfl⟩, rfl⟩

/-- When the sensor phase fails, the caught path is exactly
`_fallback_sensors` applied to the partially-mutated state. -/
theorem applySensors_fails_eq (sensors : Option SensorStrategy) (dt : ℚ) (s : VehicleState)
    (h : sensorPhaseFails sensors dt s = true) :
    applySensors sensors dt s = fallbackSensors dt (sensorPartial sensors dt s) := by
  cases sensors with
  | none => rfl
  | some st =>
    unfold applySensors sensorPartial
    unfold sensorPhaseFails at h
    cases hc : st.get_coolant_temp s.coolant_temp_c s.engine_on dt with
    | none => simp [hc]
    | some c =>
      cases hf : st.get_fuel_level s.fuel_level_pct s.throttle dt with
      | none => simp [hc, hf]
      | some f =>
        cases hb : st.get_battery_voltage s.battery_v s.engine_on dt with
        | none => simp [hc, hf, hb]
        | some b => simp [hc, hf, hb] at h

/-- C7: if the sensor strategy is absent or any of its three calls raises,
`VehicleModel.update(dt)` completes normally — the failure is caught, never
propagated — and the sensor fields are produced by the deterministic fallback
dynamics applied to the state at the failure point, which agrees with the
post-physics state on every non-sensor field (and on the battery field). -/
theorem sensor_failure_uses_fallback (sensors : Option SensorStrategy) (dt : ℚ)
    (s : VehicleState)
    (h : sensorPhaseFails sensors dt (physPhase dt s) = true) :
    eqOnNonSensorFields (sensorPartial sensors dt (physPhase dt s)) (physPhase dt s) ∧
    (sensorPartial sensors dt (physPhase dt s)).battery_v = (physPhase dt s).battery_v ∧
    vupdate sensors dt s =
      { fallbackSensors dt (sensorPartial sensors dt (physPhase dt s)) with t := s.t + dt } := by
  obtain ⟨ha, hb⟩ := sensorPartial_agrees sensors dt (physPhase dt s)
  refine ⟨ha, hb, ?_⟩
  show { applySensors sensors dt (physPhase dt s) with
      t := (applySensors sensors dt (physPhase dt s)).t + dt } =
    { fallbackSensors dt (sensorPartial sensors dt (physPhase dt s)) with t := s.t + dt }
  rw [applySensors_fails_eq sensors dt (physPhase dt s) h]
  have ht : (fallbackSensors dt (sensorPartial sensors dt (physPhase dt s))).t = s.t := by
    rw [fallbackSensors_t, ha.1, physPhase_t]
  rw [ht]

/-- Witness for C7: a strategy every call of which raises, at the default
state with `dt = 1`. -/
theorem sensor_failure_uses_fallback_witness :
    sensorPhaseFails (some failingSensors) 1 (physPhase 1 {}) = true ∧
    (eqOnNonSensorFields (sensorPartial (some failingSensors) 1 (physPhase 1 {}))
        (physPhase 1 {}) ∧
     (sensorPartial (some failingSensors) 1 (physPhase 1 {})).battery_v =
        (physPhase 1 {}).battery_v ∧
     vupdate (some failingSensors) 1 {} =
       { fallbackSensors 1 (sensorPartial (some failingSensors) 1 (physPhase 1 {})) with
           t := ({} : VehicleState).t + 1 }) :=
  ⟨rfl, sensor_failure_uses_fallback (some failingSensors) 1 {} rfl⟩

/-! ### Fuel monotonicity (C9) -/

/-- With no sensor strategy, the fuel after one `update` is the fallback burn
applied to the post-physics state. -/
theorem vupdate_none_fuel (dt : ℚ) (s : VehicleState) :
    (vupdate none dt s).fuel_level_pct =
      max 0 ((physPhase dt s).fuel_level_pct -
        (0.00002 + 0.0004 * (physPhase dt s).throttle) * dt) := rfl

/-- One `update` step with `dt > 0` and a non-negative stored throttle never
increases the fuel level and never makes it negative. -/
theorem fuel_step (dt : ℚ) (s : VehicleState) (hdt : 0 < dt)
    (hth : 0 ≤ s.throttle) (hf : 0 ≤ s.fuel_level_pct) :
    (vupdate none dt s).fuel_level_pct ≤ s.fuel_level_pct ∧
    0 ≤ (vupdate none dt s).fuel_level_pct := by
  rw [vupdate_none_fuel, physPhase_fuel, physPhase_throttle]
  have hth2 : 0 ≤ (if s.engine_on then s.throttle else 0 : ℚ) := by
    split <;> [exact hth; exact le_refl 0]
  have hd : 0 ≤ (0.00002 + 0.0004 * (if s.engine_on then s.throttle else 0 : ℚ)) * dt := by
    have : (0 : ℚ) ≤ 0.00002 + 0.0004 * (if s.engine_on then s.throttle else 0 : ℚ) := by
      nlinarith
    exact mul_nonneg this hdt.le
  exact ⟨max_le hf (sub_le_self _ hd), le_max_left _ _⟩

/-- C9: along any sequence of `update` calls with `dt > 0`, with the engine
flag and a non-negative throttle command possibly changing before each call
and the fallback sensor dynamics in effect, the fuel level never increases
and never becomes negative. -/
theorem fuel_monotone_nonneg (s : VehicleState) (l : List StepInput)
    (hl : ∀ i ∈ l, 0 < i.dt ∧ 0 ≤ i.throttleCmd) (hf : 0 ≤ s.fuel_level_pct) :
    (runInputs s l).fuel_level_pct ≤ s.fuel_level_pct ∧
    0 ≤ (runInputs s l).fuel_level_pct := by
  induction l generalizing s with
  | nil => exact ⟨le_refl _, hf⟩
  | cons i rest ih =>
    have hi := hl i (List.mem_cons_self i rest)
    have hstep := fuel_step i.dt { s with throttle := i.throttleCmd, engine_on := i.engineCmd }
      hi.1 hi.2 hf
    have hrun : runInputs s (i :: rest) = runInputs (applyInput s i) rest := rfl
    have hrest := ih (applyInput s i) (fun j hj => hl j (List.mem_cons_of_mem i hj)) hstep.2
    rw [hrun]
    exact ⟨le_trans hrest.1 hstep.1, hrest.2⟩

/-- Witness for C9: two steps from the default state — full throttle with
the engine on, then zero throttle with the engine off. -/
theorem fuel_monotone_nonneg_witness :
    ((∀ i ∈ [({ dt := 1, throttleCmd := 1, engineCmd := true } : StepInput),
        { dt := 1, throttleCmd := 0, engineCmd := false }], 0 < i.dt ∧ 0 ≤ i.throttleCmd) ∧
     0 ≤ ({} : VehicleState).fuel_level_pct) ∧
    ((runInputs {} [({ dt := 1, throttleCmd := 1, engineCmd := true } : StepInput),
        { dt := 1, throttleCmd := 0, engineCmd := false }]).fuel_level_pct ≤
      ({} : VehicleState).fuel_level_pct ∧
     0 ≤ (runInputs {} [({ dt := 1, throttleCmd := 1, engineCmd := true } : StepInput),
        { dt := 1, throttleCmd := 0, engineCmd := false }]).fuel_level_pct) :=
  ⟨⟨by decide, by decide⟩,
    fuel_monotone_nonneg {} [({ dt := 1, throttleCmd := 1, engineCmd := true } : StepInput),
      { dt := 1, throttleCmd := 0, engineCmd := false }] (by decide) (by decide)⟩

/-! ### Coolant blending (C10) -/

/-- The fallback coolant update in closed form. -/
theorem fallbackSensors_coolant (dt : ℚ) (s : VehicleState) :
    (fallbackSensors dt s).coolant_temp_c =
      s.coolant_temp_c +
        ((if s.engine_on then (92 : ℚ) else 20) - s.coolant_temp_c) * min 1 (dt * 0.02) := rfl

/-- C10: for `dt > 0` the fallback coolant temperature moves from its previous
value toward the current target (92 °C engine on, 20 °C engine off) without
overshooting — it stays in the closed interval between the two — so the band
`[20, 92]` is preserved by every update once entered, and the initial 70 °C
lies inside it. -/
theorem coolant_blend_no_overshoot (dt : ℚ) (s : VehicleState) (hdt : 0 < dt) :
    (min s.coolant_temp_c (if s.engine_on then (92 : ℚ) else 20) ≤
        (fallbackSensors dt s).coolant_temp_c ∧
     (fallbackSensors dt s).coolant_temp_c ≤
        max s.coolant_temp_c (if s.engine_on then (92 : ℚ) else 20)) ∧
    (20 ≤ s.coolant_temp_c → s.coolant_temp_c ≤ 92 →
      20 ≤ (fallbackSensors dt s).coolant_temp_c ∧
      (fallbackSensors dt s).coolant_temp_c ≤ 92) ∧
    (20 ≤ ({} : VehicleState).coolant_temp_c ∧ ({} : VehicleState).coolant_temp_c ≤ 92) := by
  rw [fallbackSensors_coolant]
  set c := s.coolant_temp_c with hc
  set T := (if s.engine_on then (92 : ℚ) else 20) with hT
  set a := min 1 (dt * 0.02) with ha
  have ha0 : 0 ≤ a := le_min (by norm_num) (by nlinarith)
  have ha1 : a ≤ 1 := min_le_left _ _
  have hbetween : min c T ≤ c + (T - c) * a ∧ c + (T - c) * a ≤ max c T := by
    rcases le_total c T with hcT | hTc
    · rw [min_eq_left hcT, max_eq_right hcT]
      constructor <;> nlinarith [mul_nonneg (sub_nonneg.mpr hcT) ha0,
        mul_nonneg (sub_nonneg.mpr hcT) (sub_nonneg.mpr ha1)]
    · rw [min_eq_right hTc, max_eq_left hTc]
      constructor <;> nlinarith [mul_nonneg (sub_nonneg.mpr hTc) ha0,
        mul_nonneg (sub_nonneg.mpr hTc) (sub_nonneg.mpr ha1)]
  refine ⟨hbetween, ?_, by norm_num, by norm_num⟩
  intro h20 h92
  have hT20 : 20 ≤ T := by rw [hT]; split <;> norm_num
  have hT92 : T ≤ 92 := by rw [hT]; split <;> norm_num
  constructor
  · exact le_trans (le_min h20 hT20) hbetween.1
  · exact le_trans hbetween.2 (max_le h92 hT92)

/-- Witness for C10 at the default state (coolant 70 °C, engine on), `dt = 1`. -/
theorem coolant_blend_no_overshoot_witness :
    (0 : ℚ) < 1 ∧
    ((min ({} : VehicleState).coolant_temp_c
        (if ({} : VehicleState).engine_on then (92 : ℚ) else 20) ≤
        (fallbackSensors 1 {}).coolant_temp_c ∧
      (fallbackSensors 1 {}).coolant_temp_c ≤
        max ({} : VehicleState).coolant_temp_c
          (if ({} : VehicleState).engine_on then (92 : ℚ) else 20)) ∧
     (20 ≤ ({} : VehicleState).coolant_temp_c → ({} : VehicleState).coolant_temp_c ≤ 92 →
       20 ≤ (fallbackSensors 1 {}).coolant_temp_c ∧
       (fallbackSensors 1 {}).coolant_temp_c ≤ 92) ∧
     (20 ≤ ({} : VehicleState).coolant_temp_c ∧ ({} : VehicleState).coolant_temp_c ≤ 92)) :=
  ⟨by norm_num, coolant_blend_no_overshoot 1 {} (by norm_num)⟩
